import Mathlib

/-!
Shallow embedding of the FTL HTTP request-handling core
(src/ftl/src/{method,error,service,router,schema}.rs).

Machine integers (u16, usize) are modelled as Nat with explicit range
checks where the source checks them; byte buffers (hyper Bytes) are
List Nat with each element a byte value; header values are byte lists;
transport methods are their token strings; fallible Rust operations
return Option or Except.
-/

namespace FTL

/-! Method classifier, from src/ftl/src/method.rs. -/

/-- Embeds the SupportedMethod enumeration (method.rs, declaration order
Get, Post, Put, Delete, Head, Options, Patch). -/
inductive SupportedMethod where
  | get
  | post
  | put
  | delete
  | head
  | options
  | patch
deriving DecidableEq

/-- Embeds SupportedMethod::ALLOW_HEADER (method.rs line 57). -/
def SupportedMethod.ALLOW_HEADER : String :=
  "GET, POST, PUT, DELETE, HEAD, OPTIONS, PATCH"

/-- Embeds SupportedMethod::new (method.rs lines 59-70): classify a transport
method token; unsupported tokens are returned inside the error, as in
UnsupportedMethod(other). -/
def SupportedMethod.new (method : String) : Except String SupportedMethod :=
  match method with
  | "GET" => .ok .get
  | "POST" => .ok .post
  | "PUT" => .ok .put
  | "DELETE" => .ok .delete
  | "HEAD" => .ok .head
  | "OPTIONS" => .ok .options
  | "PATCH" => .ok .patch
  | other => .error other

/-- Embeds SupportedMethod::request_has_body (method.rs lines 72-74):
matches!(self, Self::Get | Self::Delete | Self::Head | Self::Options). -/
def SupportedMethod.request_has_body : SupportedMethod → Bool
  | .get => true
  | .delete => true
  | .head => true
  | .options => true
  | _ => false

/-- Embeds SupportedMethod::response_has_body (method.rs lines 76-78):
matches!(self, Self::Head). -/
def SupportedMethod.response_has_body : SupportedMethod → Bool
  | .head => true
  | _ => false

/-- Embeds strum EnumIter for SupportedMethod: variants in declaration
order, as produced by SupportedMethod::iter().collect() in service.rs. -/
def SupportedMethod.iter : List SupportedMethod :=
  [.get, .post, .put, .delete, .head, .options, .patch]

/-! Error taxonomy, from src/ftl/src/error.rs.  HTTP status codes
(http::StatusCode) are Nat; the http crate guarantees the 100..=999 range
only through from_u16, modelled below. -/

/-- Embeds the http crate constant StatusCode::NOT_FOUND; these named
constants are the ones BaseError::status uses. -/
def StatusCode.NOT_FOUND : Nat := 404

/-- Embeds StatusCode::METHOD_NOT_ALLOWED. -/
def StatusCode.METHOD_NOT_ALLOWED : Nat := 405

/-- Embeds StatusCode::REQUEST_TIMEOUT. -/
def StatusCode.REQUEST_TIMEOUT : Nat := 408

/-- Embeds StatusCode::LENGTH_REQUIRED. -/
def StatusCode.LENGTH_REQUIRED : Nat := 411

/-- Embeds StatusCode::PAYLOAD_TOO_LARGE. -/
def StatusCode.PAYLOAD_TOO_LARGE : Nat := 413

/-- Embeds StatusCode::UNSUPPORTED_MEDIA_TYPE. -/
def StatusCode.UNSUPPORTED_MEDIA_TYPE : Nat := 415

/-- Embeds StatusCode::BAD_REQUEST. -/
def StatusCode.BAD_REQUEST : Nat := 400

/-- Embeds StatusCode::INTERNAL_SERVER_ERROR. -/
def StatusCode.INTERNAL_SERVER_ERROR : Nat := 500

/-- Embeds http::StatusCode::from_u16: valid iff 100 <= code < 1000;
otherwise an InvalidStatusCode error. -/
def StatusCode.from_u16 (src : Nat) : Except String Nat :=
  if 100 ≤ src ∧ src < 1000 then .ok src else .error "invalid status code"

/-- Embeds Box<dyn Error + Send + Sync> (BoxError in lib.rs): a type-erased
error value, of which only the display string is observable through the
Display impl; typeName records the erased concrete type so that the
lossiness of the serde round trip is expressible. -/
structure BoxError where
  typeName : String
  display : String
deriving DecidableEq

/-- Embeds From<String> for BoxError: wraps a String as an error whose
display is the string itself (used by DynError deserialization,
error.rs line 123). -/
def BoxError.ofString (s : String) : BoxError :=
  { typeName := "String", display := s }

/-- Embeds DynError (error.rs lines 59-64): a status code plus an optional
type-erased cause. -/
structure DynError where
  status : Nat
  error : Option BoxError
deriving DecidableEq

/-- Embeds DynErrorSerde (error.rs lines 66-70): the wire representation,
a u16 status and an optional flattened message string. -/
structure DynErrorSerde where
  status : Nat
  error : Option String
deriving DecidableEq

/-- Embeds the Serialize impl for DynError (error.rs lines 98-110):
keep the status, render the cause to its display string. -/
def DynError.serialize (d : DynError) : DynErrorSerde :=
  { status := d.status, error := d.error.map (fun err => err.display) }

/-- Embeds the Deserialize impl for DynError (error.rs lines 112-126):
validate the status through StatusCode::from_u16, rebuild the cause
from the message string via From<String>. -/
def DynError.deserialize (repr : DynErrorSerde) : Except String DynError :=
  match StatusCode.from_u16 repr.status with
  | .error e => .error e
  | .ok status => .ok { status := status, error := repr.error.map BoxError.ofString }

/-- Embeds InvalidParameter (error.rs lines 53-57). -/
structure InvalidParameter where
  name : String
  value : Option String
deriving DecidableEq

/-- Embeds the BaseError enumeration (error.rs lines 27-51). -/
inductive BaseError where
  | notFound
  | methodNotAllowed (allowed : List SupportedMethod)
  | requestTimeout
  | lengthRequired
  | payloadTooLarge
  | unsupportedMediaType
  | bodyNotUtf8
  | invalidParameter (query : List InvalidParameter) (header : List InvalidParameter)
  | other (e : DynError)
deriving DecidableEq

/-- Embeds the Error impl for BaseError, fn status (error.rs lines 79-91). -/
def BaseError.status : BaseError → Nat
  | .notFound => StatusCode.NOT_FOUND
  | .methodNotAllowed _ => StatusCode.METHOD_NOT_ALLOWED
  | .requestTimeout => StatusCode.REQUEST_TIMEOUT
  | .lengthRequired => StatusCode.LENGTH_REQUIRED
  | .payloadTooLarge => StatusCode.PAYLOAD_TOO_LARGE
  | .unsupportedMediaType => StatusCode.UNSUPPORTED_MEDIA_TYPE
  | .bodyNotUtf8 => StatusCode.BAD_REQUEST
  | .invalidParameter _ _ => StatusCode.BAD_REQUEST
  | .other e => e.status

/-! Request service, from src/ftl/src/service.rs. -/

/-- Embeds http::HeaderValue: a raw byte sequence. -/
structure HeaderValue where
  bytes : List Nat
deriving DecidableEq

/-- Embeds HeaderValue::to_str from the http crate, called at
service.rs line 202: succeeds iff every byte is visible ASCII
(32 <= b < 127) or a horizontal tab, yielding those bytes as a string. -/
def HeaderValue.to_str (v : HeaderValue) : Option String :=
  if v.bytes.all (fun b => (32 ≤ b && b < 127) || b = 9) then
    some (String.mk (v.bytes.map Char.ofNat))
  else
    none

/-- Embeds str::parse::<usize> (u64 on the target), called at
service.rs line 204: an optional leading plus sign followed by one or
more ASCII digits, rejecting any other character, the empty string,
and values that overflow usize. -/
def parse_usize (s : String) : Option Nat :=
  let digits := match s.data with
    | '+' :: rest => rest
    | cs => cs
  if digits.isEmpty then none
  else if digits.all Char.isDigit then
    let n := digits.foldl (fun a c => a * 10 + (c.toNat - 48)) 0
    if n < 2 ^ 64 then some n else none
  else none

/-- Embeds the validity predicate of std::str::from_utf8, called at
service.rs line 232: standard UTF-8, rejecting overlong encodings,
surrogate code points and values above U+10FFFF. -/
def utf8Validate : List Nat → Bool
  | [] => true
  | b :: rest =>
    if b < 0x80 then utf8Validate rest
    else if 0xC2 ≤ b ∧ b ≤ 0xDF then
      match rest with
      | b1 :: rest2 => (0x80 ≤ b1 && b1 ≤ 0xBF) && utf8Validate rest2
      | [] => false
    else if b = 0xE0 then
      match rest with
      | b1 :: b2 :: rest2 =>
        (0xA0 ≤ b1 && b1 ≤ 0xBF) && (0x80 ≤ b2 && b2 ≤ 0xBF) && utf8Validate rest2
      | _ => false
    else if (0xE1 ≤ b ∧ b ≤ 0xEC) ∨ b = 0xEE ∨ b = 0xEF then
      match rest with
      | b1 :: b2 :: rest2 =>
        (0x80 ≤ b1 && b1 ≤ 0xBF) && (0x80 ≤ b2 && b2 ≤ 0xBF) && utf8Validate rest2
      | _ => false
    else if b = 0xED then
      match rest with
      | b1 :: b2 :: rest2 =>
        (0x80 ≤ b1 && b1 ≤ 0x9F) && (0x80 ≤ b2 && b2 ≤ 0xBF) && utf8Validate rest2
      | _ => false
    else if b = 0xF0 then
      match rest with
      | b1 :: b2 :: b3 :: rest2 =>
        (0x90 ≤ b1 && b1 ≤ 0xBF) && (0x80 ≤ b2 && b2 ≤ 0xBF) &&
          (0x80 ≤ b3 && b3 ≤ 0xBF) && utf8Validate rest2
      | _ => false
    else if 0xF1 ≤ b ∧ b ≤ 0xF3 then
      match rest with
      | b1 :: b2 :: b3 :: rest2 =>
        (0x80 ≤ b1 && b1 ≤ 0xBF) && (0x80 ≤ b2 && b2 ≤ 0xBF) &&
          (0x80 ≤ b3 && b3 ≤ 0xBF) && utf8Validate rest2
      | _ => false
    else if b = 0xF4 then
      match rest with
      | b1 :: b2 :: b3 :: rest2 =>
        (0x80 ≤ b1 && b1 ≤ 0x8F) && (0x80 ≤ b2 && b2 ≤ 0xBF) &&
          (0x80 ≤ b3 && b3 ≤ 0xBF) && utf8Validate rest2
      | _ => false
    else false

/-- Embeds http::request::Parts as consumed by parse_request: the
transport method token and the header map (names normalized to
lowercase, as hyper stores them). -/
structure Parts where
  method : String
  headers : List (String × HeaderValue)

/-- Embeds HeaderMap::get for a named header: the first entry with that
name, if any (service.rs lines 198-200 with header::CONTENT_LENGTH,
whose normalized name is content-length). -/
def headerGet (headers : List (String × HeaderValue)) (name : String) :
    Option HeaderValue :=
  (headers.find? (fun p => p.1 = name)).map (fun p => p.2)

/-- Embeds the service Config (service.rs lines 44-49) with the
tokio-runtime feature enabled; the timeout is in abstract time units. -/
structure Config where
  max_request_length : Option Nat
  request_read_timeout : Option Nat

/-- Embeds the hyper request Body as consumed by parse_request through
hyper::body::to_bytes: an abstract stream characterized by how long the
full read takes (abstract time units, compared against the configured
timeout) and what it produces on completion — the buffered bytes, or a
transport I/O error. -/
structure Body where
  readDuration : Nat
  readResult : Except BoxError (List Nat)

/-- Embeds the tail of parse_request after a completed read
(service.rs lines 225-234): on an I/O error the open error variant with
status 500 wrapping the cause, before any buffer assignment; on success
the buffer is assigned and then validated as UTF-8, Ok returning a view
over the just-filled buffer.  The second component is the final content
of the caller-provided buffer. -/
def finish_read (result : Except BoxError (List Nat)) (buf : List Nat) :
    Except BaseError (List Nat) × List Nat :=
  match result with
  | .error err =>
    (.error (.other { status := StatusCode.INTERNAL_SERVER_ERROR, error := some err }), buf)
  | .ok bytes =>
    if utf8Validate bytes then (.ok bytes, bytes) else (.error .bodyNotUtf8, bytes)

/-- Embeds the read phase of parse_request (service.rs lines 213-223):
when a timeout is configured the read is raced against it
(tokio::time::timeout) and expiry maps to RequestTimeout before any
buffer assignment; otherwise the read is awaited directly. -/
def read_body (body : Body) (conf : Config) (buf : List Nat) :
    Except BaseError (List Nat) × List Nat :=
  match conf.request_read_timeout with
  | some timeout =>
    if timeout < body.readDuration then (.error .requestTimeout, buf)
    else finish_read body.readResult buf
  | none => finish_read body.readResult buf

/-- Embeds parse_request (service.rs lines 177-235).  The function result
is the body slot handed to the handler (Ok with the bytes of the body
view, the empty list standing for the empty string view of line 193, or
Err with the BaseError) paired with the final content of the
caller-provided buffer. -/
def parse_request (parts : Parts) (body : Body) (conf : Config) (buf : List Nat) :
    Except BaseError (List Nat) × List Nat :=
  match SupportedMethod.new parts.method with
  | .error _ => (.error (.methodNotAllowed SupportedMethod.iter), buf)
  | .ok method =>
    if !method.request_has_body then (.ok [], buf)
    else
      match headerGet parts.headers "content-length" with
      | none => (.error .lengthRequired, buf)
      | some value =>
        match value.to_str with
        | none => (.error .lengthRequired, buf)
        | some s =>
          match parse_usize s with
          | none => (.error .lengthRequired, buf)
          | some content_length =>
            match conf.max_request_length with
            | some max_length =>
              if content_length > max_length then (.error .payloadTooLarge, buf)
              else read_body body conf buf
            | none => read_body body conf buf

/-- Embeds http::Response with a body of type B: numeric status, header
map, body. -/
structure Response (B : Type) where
  status : Nat
  headers : List (String × String)
  body : B
deriving DecidableEq

/-- Embeds OutBuffer (service.rs lines 51-54): a single-shot,
fully-materialized response body. -/
structure OutBuffer where
  inner : Option String
deriving DecidableEq

/-- Embeds From<String> for OutBuffer (service.rs lines 263-267). -/
def OutBuffer.from_string (s : String) : OutBuffer :=
  { inner := some s }

/-- Embeds OutBuffer::empty (service.rs lines 258-260). -/
def OutBuffer.empty : OutBuffer :=
  OutBuffer.from_string ""

/-- Embeds Router (router.rs lines 24-38): shared application context
plus the handler function.  The handler receives the context, the
request parts and the parsed body slot, and yields a response or a
type-erased unexpected error, as in the H bound of service.rs. -/
structure Router (T : Type) where
  app : T
  handler : T → Parts → Except BaseError (List Nat) → Except BoxError (Response String)

/-- Embeds the body of HyperService<Request<Body>>::call for Service
(service.rs lines 162-173): parse the request into the body slot, invoke
the router handler on the same parts, propagate an unexpected handler
error, and otherwise map the response body into an OutBuffer via
From<String>, leaving status and headers as the handler produced them. -/
def Service.call {T : Type} (router : Router T) (conf : Config)
    (parts : Parts) (body : Body) (buf : List Nat) :
    Except BoxError (Response OutBuffer) :=
  let parsed := parse_request parts body conf buf
  match router.handler router.app parts parsed.1 with
  | .error e => .error e
  | .ok resp =>
    .ok { status := resp.status, headers := resp.headers,
          body := OutBuffer.from_string resp.body }

/-! Schema fragments, from src/ftl/src/schema.rs and the Error impls in
src/ftl/src/error.rs.  Only the shape the claims consult is embedded:
the openapiv3 Schema value is its metadata plus its structural kind. -/

/-- Embeds openapiv3 SchemaData as populated by this crate: title,
description, JSON example (rendered as text), nullability. -/
structure SchemaData where
  title : Option String
  description : Option String
  exampleValue : Option String
  nullable : Bool
deriving DecidableEq

/-- Embeds the openapiv3 SchemaKind alternatives this crate constructs
for primitive types. -/
inductive SchemaKind where
  | typeString
  | typeBoolean
  | typeNumber
  | typeInteger (format : String) (minimum : Option Int) (maximum : Option Int)
deriving DecidableEq

/-- Embeds openapiv3 Schema: data plus kind. -/
structure Schema where
  schema_data : SchemaData
  schema_kind : SchemaKind
deriving DecidableEq

/-- Embeds the Schema impl for String (schema.rs lines 423-435):
title String, description String, example the JSON string foobar,
string-typed. -/
def stringSchema : Schema :=
  { schema_data :=
      { title := some "String", description := some "String",
        exampleValue := some "\"foobar\"", nullable := false },
    schema_kind := .typeString }

/-- Embeds ErrorSchema (error.rs lines 21-25): an optional default schema
plus a per-status map, the latter as an association list. -/
structure ErrorSchema where
  default_schema : Option Schema
  schemas : List (Nat × Schema)
deriving DecidableEq

/-- Embeds the Error impl for String, fn status (error.rs lines 141-143):
always StatusCode::INTERNAL_SERVER_ERROR. -/
def stringStatus (_ : String) : Nat :=
  StatusCode.INTERNAL_SERVER_ERROR

/-- Embeds the Error impl for String, fn error_schema
(error.rs lines 145-152): no default schema, and the singleton map from
StatusCode::INTERNAL_SERVER_ERROR to the String schema. -/
def stringErrorSchema : ErrorSchema :=
  { default_schema := none,
    schemas := [(StatusCode.INTERNAL_SERVER_ERROR, stringSchema)] }

/-! Specification-side helper predicates, used only to state theorems. -/

/-- Holds when the declared Content-Length of the parts resolves to a
number: the header is present, readable as a string, and parses as an
unsigned integer — the three stages of service.rs lines 198-205. -/
def contentLengthOf (parts : Parts) : Option Nat :=
  (headerGet parts.headers "content-length").bind
    (fun v => v.to_str.bind parse_usize)

/-- Holds when the abstract body read completes before a configured
timeout would fire (always true when no timeout is configured). -/
def completesInTime (body : Body) (conf : Config) : Bool :=
  match conf.request_read_timeout with
  | some timeout => body.readDuration ≤ timeout
  | none => true

/-! Shared helper lemmas. -/

/-- Helper: under a supported method the code classifies as
body-processing, a resolvable Content-Length, and an admission check
that passes, parse_request reduces to its read phase. -/
theorem parse_request_reaches_read (parts : Parts) (body : Body) (conf : Config)
    (buf : List Nat) (m : SupportedMethod) (d : Nat)
    (hm : SupportedMethod.new parts.method = .ok m)
    (hb : m.request_has_body = true)
    (hd : contentLengthOf parts = some d)
    (hmax : ∀ maxLength, conf.max_request_length = some maxLength → d ≤ maxLength) :
    parse_request parts body conf buf = read_body body conf buf := by
  unfold contentLengthOf at hd
  rcases Option.bind_eq_some.mp hd with ⟨v, hv, hvs⟩
  rcases Option.bind_eq_some.mp hvs with ⟨s, hs, hp⟩
  unfold parse_request
  rw [hm]
  simp only [hb, Bool.not_true, Bool.false_eq_true, if_false, hv, hs, hp]
  cases hmL : conf.max_request_length with
  | none => rfl
  | some maxLength =>
    have hnl : ¬ d > maxLength := Nat.not_lt.mpr (hmax maxLength hmL)
    simp [hnl]

/-- Helper: a configured timeout shorter than the read duration makes
the read phase return requestTimeout, leaving the buffer untouched. -/
theorem read_body_timeout_fires (body : Body) (conf : Config) (buf : List Nat) (t : Nat)
    (ht : conf.request_read_timeout = some t) (hlt : t < body.readDuration) :
    read_body body conf buf = (.error .requestTimeout, buf) := by
  unfold read_body
  rw [ht]
  exact if_pos hlt

/-- Helper: a read that completes before any configured timeout makes
the read phase defer to finish_read. -/
theorem read_body_completes (body : Body) (conf : Config) (buf : List Nat)
    (hc : completesInTime body conf = true) :
    read_body body conf buf = finish_read body.readResult buf := by
  unfold read_body
  cases hT : conf.request_read_timeout with
  | none => rfl
  | some t =>
    unfold completesInTime at hc
    rw [hT] at hc
    simp only [decide_eq_true_eq] at hc
    exact if_neg (Nat.not_lt.mpr hc)

/-! Claims. -/

/-- C4: BaseError::status maps each concrete error kind to exactly one
fixed HTTP status — NotFound 404, MethodNotAllowed 405, RequestTimeout
408, LengthRequired 411, PayloadTooLarge 413, UnsupportedMediaType 415,
BodyNotUtf8 400, InvalidParameter 400 — and the open variant Other
returns the status stored inside the value itself. -/
theorem c4_base_error_status_mapping :
    BaseError.notFound.status = 404 ∧
    (∀ allowed, (BaseError.methodNotAllowed allowed).status = 405) ∧
    BaseError.requestTimeout.status = 408 ∧
    BaseError.lengthRequired.status = 411 ∧
    BaseError.payloadTooLarge.status = 413 ∧
    BaseError.unsupportedMediaType.status = 415 ∧
    BaseError.bodyNotUtf8.status = 400 ∧
    (∀ query header, (BaseError.invalidParameter query header).status = 400) ∧
    (∀ d : DynError, (BaseError.other d).status = d.status) := by
  exact ⟨rfl, fun _ => rfl, rfl, rfl, rfl, rfl, rfl, fun _ _ => rfl, fun _ => rfl⟩

/-- C10: a plain String used as an application error always has status
500, and its error_schema has no default schema and maps exactly the one
status 500 to the String schema. -/
theorem c10_string_error_is_internal :
    (∀ s : String, stringStatus s = 500) ∧
    stringErrorSchema.default_schema = none ∧
    stringErrorSchema.schemas = [(500, stringSchema)] := by
  exact ⟨fun _ => rfl, rfl, rfl⟩

/-- C5: serializing a DynError with status 418 and a cause displaying as
teapot and then deserializing yields status 418 and cause display teapot
with the cause rebuilt as a plain String (the original cause type is not
preserved); deserializing a wire envelope whose status is 9999 fails;
and DynError construction itself never fails — it is a total operation
returning exactly the given fields. -/
theorem c5_dyn_error_roundtrip :
    DynError.deserialize (DynError.serialize
        { status := 418,
          error := some { typeName := "hyper::Error", display := "teapot" } }) =
      .ok { status := 418, error := some (BoxError.ofString "teapot") } ∧
    (BoxError.ofString "teapot").display = "teapot" ∧
    (BoxError.ofString "teapot").typeName = "String" ∧
    (DynError.deserialize { status := 9999, error := none }).isOk = false ∧
    (∀ (status : Nat) (cause : Option BoxError),
      (DynError.mk status cause).status = status ∧
        (DynError.mk status cause).error = cause) := by
  refine ⟨rfl, rfl, rfl, rfl, fun _ _ => ⟨rfl, rfl⟩⟩

/-- C1: the claim states that GET, DELETE, HEAD and OPTIONS skip all
Content-Length and body-read processing and dispatch the empty body
view, while POST, PUT and PATCH run length admission, bounded read and
UTF-8 validation.  The code does the exact opposite:
request_has_body (method.rs lines 72-74) answers true for
{GET, DELETE, HEAD, OPTIONS} — inverted relative to its own name — so
the guard at service.rs line 192 skips body processing for POST, PUT and
PATCH and runs it for the other four.  This theorem evaluates the code
at the failing inputs: a POST with no Content-Length dispatches the
empty body view untouched by any admission logic, while a GET with no
Content-Length is rejected with lengthRequired. -/
theorem c1_body_exemption_inverted_eval :
    parse_request { method := "POST", headers := [] }
        { readDuration := 0, readResult := .ok [104, 105] }
        { max_request_length := some 100, request_read_timeout := none } [] =
      (.ok [], []) ∧
    parse_request { method := "GET", headers := [] }
        { readDuration := 0, readResult := .ok [] }
        { max_request_length := none, request_read_timeout := none } [] =
      (.error .lengthRequired, []) ∧
    SupportedMethod.post.request_has_body = false ∧
    SupportedMethod.get.request_has_body = true := by
  refine ⟨rfl, rfl, rfl, rfl⟩

/-- C2 counterexample: a POST request declaring Content-Length 11
against a configured maximum of 5 is not rejected with payload-too-large
as the claim states for every request; the code skips body processing
for POST entirely and dispatches the empty body view. -/
theorem c2_counterexample_post_oversize_not_rejected :
    parse_request { method := "POST", headers := [("content-length", { bytes := [49, 49] })] }
        { readDuration := 0, readResult := .ok [] }
        { max_request_length := some 5, request_read_timeout := none } [] =
      (.ok [], []) ∧
    (Except.ok [] : Except BaseError (List Nat)) ≠ .error .payloadTooLarge := by
  exact ⟨rfl, by simp⟩

/-- C2 (amended): for every request whose method the code classifies as
body-processing (request_has_body true, the set GET, DELETE, HEAD,
OPTIONS) and whose declared Content-Length d exceeds a configured
maximum L, parse_request returns payloadTooLarge (status 413) with the
caller buffer untouched and with a result independent of the body
stream — zero body bytes are consumed; and when no maximum is
configured, every declared length passes the check: parse_request proceeds
to its read phase. -/
theorem c2_amended_payload_too_large_before_read
    (parts : Parts) (conf : Config) (buf : List Nat) (m : SupportedMethod) (d : Nat)
    (hm : SupportedMethod.new parts.method = .ok m)
    (hb : m.request_has_body = true)
    (hd : contentLengthOf parts = some d) :
    (∀ L, conf.max_request_length = some L → L < d →
      (∀ body, parse_request parts body conf buf = (.error .payloadTooLarge, buf)) ∧
      BaseError.payloadTooLarge.status = 413) ∧
    (conf.max_request_length = none →
      ∀ body, parse_request parts body conf buf = read_body body conf buf) := by
  constructor
  · intro L hL hlt
    refine ⟨fun body => ?_, rfl⟩
    unfold contentLengthOf at hd
    rcases Option.bind_eq_some.mp hd with ⟨v, hv, hvs⟩
    rcases Option.bind_eq_some.mp hvs with ⟨s, hs, hp⟩
    unfold parse_request
    rw [hm]
    simp only [hb, Bool.not_true, Bool.false_eq_true, if_false, hv, hs, hp, hL]
    simp [hlt]
  · intro hnone body
    exact parse_request_reaches_read parts body conf buf m d hm hb hd
      (fun maxLength h => by rw [hnone] at h; cases h)

/-- C2 witness: a GET request declaring Content-Length 7 against a
configured maximum of 3 is rejected with payloadTooLarge, status 413,
with the buffer untouched, for a concrete body stream. -/
theorem c2_amended_witness :
    parse_request { method := "GET", headers := [("content-length", { bytes := [55] })] }
        { readDuration := 0, readResult := .ok [104] }
        { max_request_length := some 3, request_read_timeout := none } [] =
      (.error .payloadTooLarge, []) ∧
    BaseError.payloadTooLarge.status = 413 := by
  have h := (c2_amended_payload_too_large_before_read
      { method := "GET", headers := [("content-length", { bytes := [55] })] }
      { max_request_length := some 3, request_read_timeout := none } [] .get 7
      rfl rfl rfl).1 3 rfl (by decide)
  exact ⟨h.1 { readDuration := 0, readResult := .ok [104] }, h.2⟩

/-- C3 counterexample: a PUT request lacking the Content-Length header
does not yield lengthRequired as the claim states for body-requiring
methods; the code skips body processing for PUT and dispatches the empty
body view. -/
theorem c3_counterexample_put_without_length :
    parse_request { method := "PUT", headers := [] }
        { readDuration := 0, readResult := .ok [] }
        { max_request_length := none, request_read_timeout := none } [] =
      (.ok [], []) ∧
    (Except.ok [] : Except BaseError (List Nat)) ≠ .error .lengthRequired := by
  exact ⟨rfl, by simp⟩

/-- C3 (amended): for every request whose method the code classifies as
body-processing (request_has_body true, the set GET, DELETE, HEAD,
OPTIONS), an absent Content-Length header, a header value not readable
as a string, and a value that does not parse as an unsigned integer
each make parse_request return lengthRequired, whose status is 411. -/
theorem c3_amended_length_required
    (parts : Parts) (body : Body) (conf : Config) (buf : List Nat) (m : SupportedMethod)
    (hm : SupportedMethod.new parts.method = .ok m)
    (hb : m.request_has_body = true) :
    (headerGet parts.headers "content-length" = none →
      parse_request parts body conf buf = (.error .lengthRequired, buf)) ∧
    (∀ v, headerGet parts.headers "content-length" = some v → v.to_str = none →
      parse_request parts body conf buf = (.error .lengthRequired, buf)) ∧
    (∀ v s, headerGet parts.headers "content-length" = some v → v.to_str = some s →
      parse_usize s = none →
      parse_request parts body conf buf = (.error .lengthRequired, buf)) ∧
    BaseError.lengthRequired.status = 411 := by
  refine ⟨?_, ?_, ?_, rfl⟩
  · intro hnone
    unfold parse_request
    rw [hm]
    simp [hb, hnone]
  · intro v hv hs
    unfold parse_request
    rw [hm]
    simp [hb, hv, hs]
  · intro v s hv hs hp
    unfold parse_request
    rw [hm]
    simp [hb, hv, hs, hp]

/-- C3 witness: for GET requests, a missing Content-Length header, an
unreadable header value (the non-ASCII byte 200) and an unparsable value
(the letter a) each yield lengthRequired, status 411. -/
theorem c3_amended_witness :
    parse_request { method := "GET", headers := [] }
        { readDuration := 0, readResult := .ok [] }
        { max_request_length := none, request_read_timeout := none } [] =
      (.error .lengthRequired, []) ∧
    parse_request { method := "GET", headers := [("content-length", { bytes := [200] })] }
        { readDuration := 0, readResult := .ok [] }
        { max_request_length := none, request_read_timeout := none } [] =
      (.error .lengthRequired, []) ∧
    parse_request { method := "GET", headers := [("content-length", { bytes := [97] })] }
        { readDuration := 0, readResult := .ok [] }
        { max_request_length := none, request_read_timeout := none } [] =
      (.error .lengthRequired, []) ∧
    BaseError.lengthRequired.status = 411 := by
  have h1 := (c3_amended_length_required { method := "GET", headers := [] }
      { readDuration := 0, readResult := .ok [] }
      { max_request_length := none, request_read_timeout := none } [] .get
      rfl rfl).1 rfl
  have h2 := (c3_amended_length_required
      { method := "GET", headers := [("content-length", { bytes := [200] })] }
      { readDuration := 0, readResult := .ok [] }
      { max_request_length := none, request_read_timeout := none } [] .get
      rfl rfl).2.1 { bytes := [200] } rfl rfl
  have h3 := (c3_amended_length_required
      { method := "GET", headers := [("content-length", { bytes := [97] })] }
      { readDuration := 0, readResult := .ok [] }
      { max_request_length := none, request_read_timeout := none } [] .get
      rfl rfl).2.2.1 { bytes := [97] } "a" rfl rfl rfl
  exact ⟨h1, h2, h3, rfl⟩

/-- C7: when a read timeout is configured and the body read does not
complete within it, parse_request returns requestTimeout (status 408)
with the caller buffer left untouched — the bytes read so far are
discarded; and when the read completes but fails with a transport I/O
error, parse_request returns the open error variant carrying status 500
and that error as its nested cause, again leaving the buffer untouched. -/
theorem c7_timeout_and_io_error
    (parts : Parts) (body : Body) (conf : Config) (buf : List Nat)
    (m : SupportedMethod) (d : Nat)
    (hm : SupportedMethod.new parts.method = .ok m)
    (hb : m.request_has_body = true)
    (hd : contentLengthOf parts = some d)
    (hmax : ∀ L, conf.max_request_length = some L → d ≤ L) :
    (∀ t, conf.request_read_timeout = some t → t < body.readDuration →
      parse_request parts body conf buf = (.error .requestTimeout, buf) ∧
      BaseError.requestTimeout.status = 408) ∧
    (∀ e, completesInTime body conf = true → body.readResult = .error e →
      parse_request parts body conf buf =
        (.error (.other { status := 500, error := some e }), buf) ∧
      (BaseError.other { status := 500, error := some e }).status = 500) := by
  have hread := parse_request_reaches_read parts body conf buf m d hm hb hd hmax
  constructor
  · intro t ht hlt
    exact ⟨by rw [hread, read_body_timeout_fires body conf buf t ht hlt], rfl⟩
  · intro e hc hr
    refine ⟨?_, rfl⟩
    rw [hread, read_body_completes body conf buf hc, hr]
    rfl

/-- C7 witness: with a configured timeout of 5 units, a GET whose body
read takes 10 units yields requestTimeout with the buffer untouched;
and a GET whose read completes in 3 units but fails with a transport
error yields the open variant with status 500 wrapping that error. -/
theorem c7_witness :
    parse_request { method := "GET", headers := [("content-length", { bytes := [49] })] }
        { readDuration := 10, readResult := .ok [] }
        { max_request_length := none, request_read_timeout := some 5 } [] =
      (.error .requestTimeout, []) ∧
    BaseError.requestTimeout.status = 408 ∧
    parse_request { method := "GET", headers := [("content-length", { bytes := [49] })] }
        { readDuration := 3, readResult := .error { typeName := "hyper::Error", display := "broken pipe" } }
        { max_request_length := none, request_read_timeout := some 5 } [] =
      (.error (.other { status := 500, error := some { typeName := "hyper::Error", display := "broken pipe" } }), []) := by
  have h1 := (c7_timeout_and_io_error
      { method := "GET", headers := [("content-length", { bytes := [49] })] }
      { readDuration := 10, readResult := .ok [] }
      { max_request_length := none, request_read_timeout := some 5 } [] .get 1
      rfl rfl rfl (fun L hL => by cases hL)).1 5 rfl (by decide)
  have h2 := (c7_timeout_and_io_error
      { method := "GET", headers := [("content-length", { bytes := [49] })] }
      { readDuration := 3, readResult := .error { typeName := "hyper::Error", display := "broken pipe" } }
      { max_request_length := none, request_read_timeout := some 5 } [] .get 1
      rfl rfl rfl (fun L hL => by cases hL)).2
      { typeName := "hyper::Error", display := "broken pipe" } rfl rfl
  exact ⟨h1.1, h1.2, h2.1⟩

/-- C8 counterexample: a PATCH request with a valid Content-Length and a
non-UTF-8 body byte is not rejected with bodyNotUtf8 as the claim states
for body-requiring methods; the code skips body processing for PATCH and
dispatches the empty body view. -/
theorem c8_counterexample_patch_invalid_utf8_not_rejected :
    parse_request { method := "PATCH", headers := [("content-length", { bytes := [49] })] }
        { readDuration := 0, readResult := .ok [255] }
        { max_request_length := none, request_read_timeout := none } [] =
      (.ok [], []) ∧
    (Except.ok [] : Except BaseError (List Nat)) ≠ .error .bodyNotUtf8 := by
  exact ⟨rfl, by simp⟩

/-- C8 (amended): for every request whose method the code classifies as
body-processing (request_has_body true: GET, DELETE, HEAD, OPTIONS),
when the length checks pass and the read completes successfully with
some bytes, parse_request returns bodyNotUtf8 (status 400) whenever
those bytes are not valid UTF-8 — the buffer then holds the bytes — and
on valid UTF-8 returns Ok with exactly the just-filled buffer as the
body view. -/
theorem c8_amended_utf8_validation
    (parts : Parts) (body : Body) (conf : Config) (buf : List Nat)
    (m : SupportedMethod) (d : Nat) (bytes : List Nat)
    (hm : SupportedMethod.new parts.method = .ok m)
    (hb : m.request_has_body = true)
    (hd : contentLengthOf parts = some d)
    (hmax : ∀ L, conf.max_request_length = some L → d ≤ L)
    (ht : completesInTime body conf = true)
    (hr : body.readResult = .ok bytes) :
    (utf8Validate bytes = false →
      parse_request parts body conf buf = (.error .bodyNotUtf8, bytes) ∧
      BaseError.bodyNotUtf8.status = 400) ∧
    (utf8Validate bytes = true →
      parse_request parts body conf buf = (.ok bytes, bytes)) := by
  have hread := parse_request_reaches_read parts body conf buf m d hm hb hd hmax
  have hfin : parse_request parts body conf buf = finish_read (.ok bytes) buf := by
    rw [hread, read_body_completes body conf buf ht, hr]
  constructor
  · intro hu
    refine ⟨?_, rfl⟩
    rw [hfin]
    unfold finish_read
    simp [hu]
  · intro hu
    rw [hfin]
    unfold finish_read
    simp [hu]

/-- C8 witness: a GET with Content-Length 1 whose read yields the single
byte 255 is rejected with bodyNotUtf8 (status 400) and the buffer holds
that byte; the same request whose read yields the ASCII byte 104 gets
Ok over the just-filled one-byte buffer. -/
theorem c8_amended_witness :
    parse_request { method := "GET", headers := [("content-length", { bytes := [49] })] }
        { readDuration := 0, readResult := .ok [255] }
        { max_request_length := none, request_read_timeout := none } [] =
      (.error .bodyNotUtf8, [255]) ∧
    BaseError.bodyNotUtf8.status = 400 ∧
    parse_request { method := "GET", headers := [("content-length", { bytes := [49] })] }
        { readDuration := 0, readResult := .ok [104] }
        { max_request_length := none, request_read_timeout := none } [] =
      (.ok [104], [104]) := by
  have h1 := (c8_amended_utf8_validation
      { method := "GET", headers := [("content-length", { bytes := [49] })] }
      { readDuration := 0, readResult := .ok [255] }
      { max_request_length := none, request_read_timeout := none } [] .get 1 [255]
      rfl rfl rfl (fun L hL => by cases hL) rfl rfl).1 rfl
  have h2 := (c8_amended_utf8_validation
      { method := "GET", headers := [("content-length", { bytes := [49] })] }
      { readDuration := 0, readResult := .ok [104] }
      { max_request_length := none, request_read_timeout := none } [] .get 1 [104]
      rfl rfl rfl (fun L hL => by cases hL) rfl rfl).2 rfl
  exact ⟨h1.1, h1.2, h2⟩

/-- C6 counterexample: for the unsupported method BREW the service
encodes exactly the headers the handler produced — here none — so the
response carries no Allow header, contrary to the claim that it equals
the fixed allowed-methods string. -/
theorem c6_counterexample_no_allow_header :
    Service.call (⟨(), fun _ _ _ => .ok { status := 405, headers := [], body := "nope" }⟩ : Router Unit)
        { max_request_length := none, request_read_timeout := none }
        { method := "BREW", headers := [] }
        { readDuration := 0, readResult := .ok [] } [] =
      .ok { status := 405, headers := [], body := OutBuffer.from_string "nope" } ∧
    (([] : List (String × String)).find? (fun p => p.1 = "Allow")) = none ∧
    SupportedMethod.new "BREW" = .error "BREW" := by
  exact ⟨rfl, rfl, rfl⟩

/-- C6 (amended): every request whose transport method is outside the
seven supported methods yields methodNotAllowed carrying the full
allowed list — all seven supported methods in declaration order — whose
status is 405, and ALLOW_HEADER is the fixed allowed-methods string;
the service layer itself attaches no Allow header: the encoded response
carries exactly the status, headers and body the handler produced. -/
theorem c6_amended_method_not_allowed
    (parts : Parts) (body : Body) (conf : Config) (buf : List Nat) (tok : String)
    (hm : SupportedMethod.new parts.method = .error tok) :
    parse_request parts body conf buf =
      (.error (.methodNotAllowed SupportedMethod.iter), buf) ∧
    SupportedMethod.iter = [.get, .post, .put, .delete, .head, .options, .patch] ∧
    (BaseError.methodNotAllowed SupportedMethod.iter).status = 405 ∧
    SupportedMethod.ALLOW_HEADER = "GET, POST, PUT, DELETE, HEAD, OPTIONS, PATCH" ∧
    (∀ (T : Type) (router : Router T) (resp : Response String),
      router.handler router.app parts (.error (.methodNotAllowed SupportedMethod.iter)) = .ok resp →
      Service.call router conf parts body buf =
        .ok { status := resp.status, headers := resp.headers, body := OutBuffer.from_string resp.body }) := by
  have hpr : parse_request parts body conf buf =
      (.error (.methodNotAllowed SupportedMethod.iter), buf) := by
    unfold parse_request
    rw [hm]
  refine ⟨hpr, rfl, rfl, rfl, ?_⟩
  intro T router resp hh
  simp only [Service.call, hpr, hh]

/-- C6 witness: the unsupported method BREW yields methodNotAllowed with
the full allowed list and status 405, and the encoded response of a
concrete handler is passed through unchanged. -/
theorem c6_amended_witness :
    parse_request { method := "BREW", headers := [] }
        { readDuration := 0, readResult := .ok [] }
        { max_request_length := none, request_read_timeout := none } [] =
      (.error (.methodNotAllowed SupportedMethod.iter), []) ∧
    (BaseError.methodNotAllowed SupportedMethod.iter).status = 405 ∧
    SupportedMethod.ALLOW_HEADER = "GET, POST, PUT, DELETE, HEAD, OPTIONS, PATCH" ∧
    Service.call (⟨(), fun _ _ _ => .ok { status := 405, headers := [("x", "y")], body := "b" }⟩ : Router Unit)
        { max_request_length := none, request_read_timeout := none }
        { method := "BREW", headers := [] }
        { readDuration := 0, readResult := .ok [] } [] =
      .ok { status := 405, headers := [("x", "y")], body := OutBuffer.from_string "b" } := by
  have h := c6_amended_method_not_allowed { method := "BREW", headers := [] }
      { readDuration := 0, readResult := .ok [] }
      { max_request_length := none, request_read_timeout := none } [] "BREW" rfl
  exact ⟨h.1, h.2.2.1, h.2.2.2.1,
    h.2.2.2.2 Unit
      ⟨(), fun _ _ _ => .ok { status := 405, headers := [("x", "y")], body := "b" }⟩
      { status := 405, headers := [("x", "y")], body := "b" } rfl⟩

/-- C9 counterexample: for a HEAD request the encoded response of the service
keeps the handler body: the OutBuffer holds the one-character body x
rather than being dropped or emptied. -/
theorem c9_counterexample_head_body_not_dropped :
    Service.call (⟨(), fun _ _ _ => .ok { status := 200, headers := [], body := "x" }⟩ : Router Unit)
        { max_request_length := none, request_read_timeout := none }
        { method := "HEAD", headers := [("content-length", { bytes := [48] })] }
        { readDuration := 0, readResult := .ok [] } [] =
      .ok { status := 200, headers := [], body := { inner := some "x" } } ∧
    ({ inner := some "x" } : OutBuffer) ≠ OutBuffer.empty ∧
    ({ inner := some "x" } : OutBuffer).inner ≠ none := by
  refine ⟨rfl, by decide, by decide⟩

/-- C9 (amended): response_has_body returns true exactly for HEAD; the
call of the service, however, does not drop the response body for any method,
HEAD included: whenever the handler returns a response, the encoded
transport response carries the handler status and headers with its
body wrapped unchanged into the single-shot OutBuffer
(response_has_body is never consulted). -/
theorem c9_amended_response_body_passthrough :
    (∀ m : SupportedMethod, m.response_has_body = true ↔ m = .head) ∧
    (∀ (T : Type) (router : Router T) (conf : Config) (parts : Parts)
        (body : Body) (buf : List Nat) (resp : Response String),
      router.handler router.app parts (parse_request parts body conf buf).1 = .ok resp →
      Service.call router conf parts body buf =
        .ok { status := resp.status, headers := resp.headers, body := OutBuffer.from_string resp.body }) := by
  constructor
  · intro m
    cases m <;> decide
  · intro T router conf parts body buf resp hh
    simp only [Service.call, hh]

/-- C9 witness: response_has_body holds at HEAD, and for a concrete
OPTIONS request and handler the encoded response carries the handler
status, headers and body unchanged. -/
theorem c9_amended_witness :
    SupportedMethod.head.response_has_body = true ∧
    Service.call (⟨(), fun _ _ _ => .ok { status := 204, headers := [("k", "v")], body := "w" }⟩ : Router Unit)
        { max_request_length := none, request_read_timeout := none }
        { method := "OPTIONS", headers := [("content-length", { bytes := [48] })] }
        { readDuration := 0, readResult := .ok [] } [] =
      .ok { status := 204, headers := [("k", "v")], body := OutBuffer.from_string "w" } := by
  have h := c9_amended_response_body_passthrough
  refine ⟨(h.1 .head).mpr rfl, ?_⟩
  exact h.2 Unit
    ⟨(), fun _ _ _ => .ok { status := 204, headers := [("k", "v")], body := "w" }⟩
    { max_request_length := none, request_read_timeout := none }
    { method := "OPTIONS", headers := [("content-length", { bytes := [48] })] }
    { readDuration := 0, readResult := .ok [] } []
    { status := 204, headers := [("k", "v")], body := "w" } rfl

end FTL
